import Mathlib

/-!
Verification of the fermenter-controller modbus simulator core
(`src/modbus_simulator/src/{sensor,pressure_simulator,modbus_hub,modbus_device,timing}.py`)
against its natural-language specification.

Shallow embedding conventions:
* Python floats are modelled as exact rationals (`ℚ`); Python ints as `ℤ`/`ℕ`.
* Each Python class becomes a Lean structure; each method a pure function
  from state to state (returning outputs alongside where the method returns).
* Randomness (`random.Random`) is modelled as a deterministic stream
  `ℕ → ℚ` of standard draws together with a cursor index in the state;
  a seeded constructor obtains its stream from a global generator function
  applied to the seed, mirroring the fact that `random.Random(s)` is a
  deterministic function of the seed `s`.
* Wall-clock time (`time.time()`) is passed explicitly as a `ℚ` argument.
* String-typed enumerations (`noise_type`, `fault_mode`, parity letters)
  are modelled as closed inductive types.
-/

/-- Python `max(lo, min(hi, x))` clamping on rationals. -/
def clampQ (lo hi x : ℚ) : ℚ := max lo (min hi x)

/-- Python `int()` applied to a float: truncation toward zero. -/
def pyInt (q : ℚ) : ℤ := if 0 ≤ q then ⌊q⌋ else -⌊-q⌋

/-- Python `round()` on a float: round half to even (banker's rounding). -/
def pyRound (q : ℚ) : ℤ :=
  let f := ⌊q⌋
  let r := q - f
  if r < 1/2 then f
  else if 1/2 < r then f + 1
  else if f % 2 = 0 then f else f + 1

/-- Python `round(x, 2)`: round to two decimal places. -/
def pyRound2 (q : ℚ) : ℚ := (pyRound (q * 100) : ℚ) / 100

/-! ## Sensor model (`sensor.py`, class `PressureSensor`) -/

/-- `noise_type` field: the source stores the strings `'gaussian'` / `'uniform'`. -/
inductive NoiseType
  | gaussian
  | uniform
  deriving DecidableEq, Repr

/-- `fault_mode` values: the source stores `'wire_break'` (open-circuit, 0 mA)
and `'sensor_defect'` (over-range, 25 mA); `None` is normal operation. -/
inductive FaultMode
  | wire_break
  | sensor_defect
  deriving DecidableEq, Repr

/-- State of `PressureSensor`.  `rngIdx` is the cursor into the sensor's
random stream (the stream itself is passed to the operations). -/
structure PressureSensor where
  channel : ℕ
  noise_percent : ℚ
  noise_type : NoiseType
  true_pressure : ℚ
  measured_pressure : ℚ
  current_ma : ℚ
  modbus_value : ℤ
  fault_mode : Option FaultMode
  rngIdx : ℕ
  deriving DecidableEq, Repr

namespace PressureSensor

/-- `MIN_PRESSURE_BAR` -/
def MIN_PRESSURE_BAR : ℚ := 0
/-- `MAX_PRESSURE_BAR` -/
def MAX_PRESSURE_BAR : ℚ := 8/5
/-- `MIN_CURRENT_MA` -/
def MIN_CURRENT_MA : ℚ := 4
/-- `MAX_CURRENT_MA` -/
def MAX_CURRENT_MA : ℚ := 20
/-- `MAX_MODBUS_VALUE` -/
def MAX_MODBUS_VALUE : ℤ := 32767

/-- `PressureSensor.__init__`: initial state (the rng stream is supplied
separately, see `SensorRT`). -/
def init (channel : ℕ) (noise_percent : ℚ) (noise_type : NoiseType) : PressureSensor :=
  { channel := channel
    noise_percent := noise_percent
    noise_type := noise_type
    true_pressure := 0
    measured_pressure := 0
    current_ma := 4
    modbus_value := 0
    fault_mode := none
    rngIdx := 0 }

/-- `PressureSensor._add_noise`.  `u` is the sensor's random stream:
`u i` is the i-th standard draw (standard normal for gaussian noise as used
by `gauss(0, sigma) = sigma * z`; a standard uniform draw on [-1, 1) for
`uniform(-f, f) = f * v`).  Returns the noisy value and the new cursor;
no draw is consumed when `noise_percent <= 0` (early return in the source). -/
def add_noise (u : ℕ → ℚ) (s : PressureSensor) (value : ℚ) : ℚ × ℕ :=
  if s.noise_percent ≤ 0 then (value, s.rngIdx)
  else
    let noise_factor := s.noise_percent / 100
    let noise :=
      match s.noise_type with
      | .gaussian => (noise_factor / 3) * u s.rngIdx
      | .uniform => noise_factor * u s.rngIdx
    let noisy_value := value * (1 + noise)
    (clampQ MIN_PRESSURE_BAR MAX_PRESSURE_BAR noisy_value, s.rngIdx + 1)

/-- `PressureSensor._pressure_to_current`: linear 0 bar → 4 mA, 1.6 bar → 20 mA. -/
def pressure_to_current (pressure_bar : ℚ) : ℚ :=
  MIN_CURRENT_MA + (pressure_bar / MAX_PRESSURE_BAR) * (MAX_CURRENT_MA - MIN_CURRENT_MA)

/-- `PressureSensor._current_to_modbus`: 4–20 mA → 0–32767, truncated by
`int()` and clamped to [0, 32767]. -/
def current_to_modbus (current_ma : ℚ) : ℤ :=
  let frac := (current_ma - MIN_CURRENT_MA) / (MAX_CURRENT_MA - MIN_CURRENT_MA)
  let mv := pyInt (frac * (MAX_MODBUS_VALUE : ℚ))
  max 0 (min MAX_MODBUS_VALUE mv)

/-- `PressureSensor.update`. -/
def update (u : ℕ → ℚ) (s : PressureSensor) (true_pressure_bar : ℚ) : PressureSensor :=
  let s := { s with
    true_pressure := max MIN_PRESSURE_BAR (min MAX_PRESSURE_BAR true_pressure_bar) }
  match s.fault_mode with
  | some .wire_break =>
      { s with measured_pressure := 0, current_ma := 0, modbus_value := 0 }
  | some .sensor_defect =>
      { s with measured_pressure := s.true_pressure, current_ma := 25,
               modbus_value := pyInt ((25 - 4) / 16 * 32767) }
  | none =>
      let mi := add_noise u s s.true_pressure
      let cur := pressure_to_current mi.1
      { s with measured_pressure := mi.1, rngIdx := mi.2,
               current_ma := cur, modbus_value := current_to_modbus cur }

/-- `PressureSensor.set_fault`. -/
def set_fault (s : PressureSensor) (fault_mode : Option FaultMode) : PressureSensor :=
  { s with fault_mode := fault_mode }

/-- `PressureSensor.set_noise_config`. -/
def set_noise_config (s : PressureSensor)
    (noise_percent : Option ℚ) (noise_type : Option NoiseType) : PressureSensor :=
  let s := match noise_percent with
    | some p => { s with noise_percent := p }
    | none => s
  match noise_type with
  | some t => { s with noise_type := t }
  | none => s

end PressureSensor

/-- One public call on a `PressureSensor`. -/
inductive SensorOp
  | upd (true_pressure_bar : ℚ)
  | fault (fault_mode : Option FaultMode)
  | noiseCfg (noise_percent : Option ℚ) (noise_type : Option NoiseType)

/-- Apply one public call. -/
def sensorStep (u : ℕ → ℚ) (s : PressureSensor) : SensorOp → PressureSensor
  | .upd tp => s.update u tp
  | .fault fm => s.set_fault fm
  | .noiseCfg p t => s.set_noise_config p t

/-- Run a sequence of public calls. -/
def sensorRun (u : ℕ → ℚ) (s : PressureSensor) (ops : List SensorOp) : PressureSensor :=
  ops.foldl (sensorStep u) s

/-- A sensor bundled with its random stream, as constructed by
`PressureSensor.__init__`: with `seed = some s` the stream is the seeded
generator offset by the channel id (`random.Random(seed + channel)`);
unseeded construction takes a fresh nondeterministic stream. -/
structure SensorRT where
  state : PressureSensor
  stream : ℕ → ℚ

/-- `PressureSensor(channel, noise_percent, noise_type, seed)` together with
its rng: `gen` models the seed-determined generator `random.Random`,
`fresh` the entropy used when `seed is None`. -/
def SensorRT.mk2 (gen : ℕ → ℕ → ℚ) (channel : ℕ) (noise_percent : ℚ)
    (noise_type : NoiseType) (seed : Option ℕ) (fresh : ℕ → ℚ) : SensorRT :=
  { state := PressureSensor.init channel noise_percent noise_type
    stream := match seed with
      | some sd => gen (sd + channel)
      | none => fresh }

/-- Trace of `(measured_pressure, current_ma, modbus_value)` after each of a
sequence of `update` calls. -/
def sensorOutputs (u : ℕ → ℚ) : PressureSensor → List ℚ → List (ℚ × ℚ × ℤ)
  | _, [] => []
  | s, v :: vs =>
      let s' := s.update u v
      (s'.measured_pressure, s'.current_ma, s'.modbus_value) :: sensorOutputs u s' vs

/-- Output trace of a bundled sensor on a sequence of update inputs. -/
def SensorRT.run (r : SensorRT) (inputs : List ℚ) : List (ℚ × ℚ × ℤ) :=
  sensorOutputs r.stream r.state inputs

/-! ## Physical process (`pressure_simulator.py`, class `PressureSimulator`) -/

/-- State of `PressureSimulator`.  The owned sensor is carried in the
state; the sensor's random stream is passed to the operations.
`last_update` is the wall-clock timestamp (seconds, as `ℚ`). -/
structure PressureSimulator where
  sensor : PressureSensor
  start_pressure : ℚ
  target_pressure : ℚ
  rate_bar_per_sec : ℚ
  current_pressure : ℚ
  running : Bool
  last_update : ℚ
  deriving DecidableEq, Repr

namespace PressureSimulator

/-- `PressureSimulator.__init__` with a `SensorConfig(start_pressure,
target_pressure, rate_bar_per_min)`; `now` is the construction time. -/
def init (u : ℕ → ℚ) (sensor : PressureSensor)
    (start_pressure target_pressure rate_bar_per_min now : ℚ) : PressureSimulator :=
  let current := start_pressure
  { sensor := sensor.update u current
    start_pressure := start_pressure
    target_pressure := target_pressure
    rate_bar_per_sec := rate_bar_per_min / 60
    current_pressure := current
    running := false
    last_update := now }

/-- `PressureSimulator.update`, called at wall-clock time `now`. -/
def update (u : ℕ → ℚ) (s : PressureSimulator) (now : ℚ) : PressureSimulator :=
  if s.running = false then s
  else
    let delta_t := now - s.last_update
    let delta_p := s.rate_bar_per_sec * delta_t
    let cur :=
      if s.current_pressure < s.target_pressure then
        min (s.current_pressure + delta_p) s.target_pressure
      else if s.target_pressure < s.current_pressure then
        max (s.current_pressure - delta_p) s.target_pressure
      else s.current_pressure
    { s with last_update := now, current_pressure := cur,
             sensor := s.sensor.update u cur }

/-- `PressureSimulator.start`, at wall-clock time `now`. -/
def start (s : PressureSimulator) (now : ℚ) : PressureSimulator :=
  { s with running := true, last_update := now }

/-- `PressureSimulator.stop`. -/
def stop (s : PressureSimulator) : PressureSimulator :=
  { s with running := false }

/-- `PressureSimulator.reset`. -/
def reset (u : ℕ → ℚ) (s : PressureSimulator) : PressureSimulator :=
  let cur := s.start_pressure
  { s with current_pressure := cur, running := false, sensor := s.sensor.update u cur }

/-- `PressureSimulator.set_target`: clamps to [0, 1.6]. -/
def set_target (s : PressureSimulator) (target_pressure : ℚ) : PressureSimulator :=
  { s with target_pressure := max 0 (min (8/5) target_pressure) }

/-- `PressureSimulator.set_rate`: per-minute rate stored per-second. -/
def set_rate (s : PressureSimulator) (rate_bar_per_min : ℚ) : PressureSimulator :=
  { s with rate_bar_per_sec := rate_bar_per_min / 60 }

/-- `PressureSimulator.set_pressure`: clamps to [0, 1.6]. -/
def set_pressure (u : ℕ → ℚ) (s : PressureSimulator) (pressure : ℚ) : PressureSimulator :=
  let cur := max 0 (min (8/5) pressure)
  { s with current_pressure := cur, sensor := s.sensor.update u cur }

end PressureSimulator

/-- Repeated `update` calls at the given wall-clock times. -/
def simUpdates (u : ℕ → ℚ) (s : PressureSimulator) (ts : List ℚ) : PressureSimulator :=
  ts.foldl (PressureSimulator.update u) s

/-- Reachable simulator states: construction from a validated
`SensorConfig` (pydantic validators: pressures in [0, 1.6], rate
strictly positive), followed by any interleaving of the public mutators.
Wall-clock time is monotone: every timestamped call happens no earlier
than the stored `last_update`.  Calls through `set_rate` are restricted
to nonnegative rates (the claim amendment; the source accepts any
value). -/
inductive SimReachNN (u : ℕ → ℚ) : PressureSimulator → Prop
  | init (sensor : PressureSensor) (sp tp rpm now : ℚ)
      (hsp0 : 0 ≤ sp) (hsp1 : sp ≤ 8/5)
      (htp0 : 0 ≤ tp) (htp1 : tp ≤ 8/5)
      (hr : 0 < rpm) :
      SimReachNN u (PressureSimulator.init u sensor sp tp rpm now)
  | upd (s : PressureSimulator) (now : ℚ) (h : SimReachNN u s)
      (ht : s.last_update ≤ now) : SimReachNN u (s.update u now)
  | start (s : PressureSimulator) (now : ℚ) (h : SimReachNN u s)
      (ht : s.last_update ≤ now) : SimReachNN u (s.start now)
  | stop (s : PressureSimulator) (h : SimReachNN u s) : SimReachNN u s.stop
  | reset (s : PressureSimulator) (h : SimReachNN u s) : SimReachNN u (s.reset u)
  | set_target (s : PressureSimulator) (t : ℚ) (h : SimReachNN u s) :
      SimReachNN u (s.set_target t)
  | set_rate (s : PressureSimulator) (r : ℚ) (h : SimReachNN u s)
      (hr : 0 ≤ r) : SimReachNN u (s.set_rate r)
  | set_pressure (s : PressureSimulator) (p : ℚ) (h : SimReachNN u s) :
      SimReachNN u (s.set_pressure u p)

/-! ## Disturbance hub (`modbus_hub.py`, class `ModbusHub`) -/

/-- Data captured by the scheduled one-shot restoration
(`threading.Timer(restore_delay, restore)`): the firing delay and the
values the closure captured. -/
structure PendingRestore where
  restore_delay : ℚ
  affected : ℤ
  original_target : ℚ
  original_rate : ℚ
  deriving DecidableEq, Repr

/-- Events delivered to the hub's trigger callback. -/
inductive HubEvent
  | pressure_drop_stopped (sensor : ℤ)
  | pressure_drop (sensor : ℤ) (from_pressure to_pressure rate dur : ℚ)
  | pressure_restore (sensor : ℤ) (target : ℚ)
  deriving DecidableEq, Repr

/-- State of `ModbusHub` (the fields the trigger path touches). -/
structure ModbusHub where
  simulators : List PressureSimulator
  pressure_drop_rate : ℚ
  pressure_drop_duration : ℚ
  affected_sensor : ℤ
  trigger_active : Bool
  restore_timer : Option PendingRestore
  stored_state : Option (ℚ × ℚ)
  deriving DecidableEq, Repr

/-- Fallback simulator for guarded list indexing (the source only indexes
`simulators[affected - 1]` after checking `0 < affected <= len`). -/
def dummySim : PressureSimulator :=
  PressureSimulator.init (fun _ => 0) (PressureSensor.init 0 0 .gaussian) 0 0 1 0

/-- `ModbusHub.trigger_pressure_drop`.
Returns the new hub state and the events emitted to the trigger callback;
`now` is the wall-clock time (used by `simulator.start()`). -/
def ModbusHub.trigger_pressure_drop (now : ℚ) (h : ModbusHub)
    (target_pressure duration_seconds rate : Option ℚ) (sensor : Option ℤ) :
    ModbusHub × List HubEvent :=
  if h.trigger_active then
    -- Stop the active drop: cancel the timer, clear the flag,
    -- then restore the simulator resolved from THIS call's `sensor` argument.
    let h := { h with restore_timer := none, trigger_active := false }
    let affected := sensor.getD h.affected_sensor
    if 0 < affected ∧ affected ≤ (h.simulators.length : ℤ) then
      let i := (affected - 1).toNat
      let simulator := (h.simulators.getD i dummySim).stop
      match h.stored_state with
      | some st =>
          let simulator := (simulator.set_target st.1).set_rate (st.2 * 60)
          ({ h with simulators := h.simulators.set i simulator, stored_state := none },
           [.pressure_drop_stopped affected])
      | none =>
          ({ h with simulators := h.simulators.set i simulator },
           [.pressure_drop_stopped affected])
    else (h, [])
  else
    let h := { h with trigger_active := true }
    let affected := sensor.getD h.affected_sensor
    if 0 < affected ∧ affected ≤ (h.simulators.length : ℤ) then
      let i := (affected - 1).toNat
      let simulator := h.simulators.getD i dummySim
      let original_target := simulator.target_pressure
      let original_rate := simulator.rate_bar_per_sec
      let h := { h with stored_state := some (original_target, original_rate) }
      let drop_rate := rate.getD h.pressure_drop_rate
      let current := simulator.current_pressure
      let td : ℚ × ℚ :=
        match target_pressure, duration_seconds with
        | some tp, _ =>
            let drop_target := max 0 (min (8/5) tp)
            let pressure_delta := |current - drop_target|
            (drop_target, if 0 < drop_rate then pressure_delta / drop_rate else 5)
        | none, some ds =>
            (max 0 (current - drop_rate * ds), ds)
        | none, none =>
            (max 0 (current - drop_rate * h.pressure_drop_duration),
             h.pressure_drop_duration)
      let simulator := (((simulator.set_target td.1).set_rate (drop_rate * 60)).start now)
      ({ h with simulators := h.simulators.set i simulator,
                restore_timer := some
                  ⟨td.2 + 1/2, affected, original_target, original_rate⟩ },
       [.pressure_drop affected current td.1 drop_rate td.2])
    else
      ({ h with trigger_active := false }, [])

/-! ## Register device (`modbus_device.py`, class `ModbusDevice`) -/

/-- Parity letters (`PARITY_MODES` values `'N'`/`'E'`/`'O'`). -/
inductive Parity
  | N
  | E
  | O
  deriving DecidableEq, Repr

/-- `BAUD_RATES` lookup table. -/
def BAUD_RATES : ℕ → Option ℕ
  | 0x00 => some 4800
  | 0x01 => some 9600
  | 0x02 => some 19200
  | 0x03 => some 38400
  | 0x04 => some 57600
  | 0x05 => some 115200
  | _ => none

/-- `PARITY_MODES` lookup table. -/
def PARITY_MODES : ℕ → Option Parity
  | 0x00 => some .N
  | 0x01 => some .E
  | 0x02 => some .O
  | _ => none

/-- Configuration state of `ModbusDevice`: the holding-register bank
(`ModbusSequentialDataBlock` of size 0x8001, modelled as a total map on
addresses) plus the decoded runtime UART settings. -/
structure ModbusDevice where
  holding_registers : ℕ → ℤ
  current_baudrate : ℕ
  current_parity : Parity
  slave_id : ℤ

/-- `ModbusDevice.__init__`: initial holding-register bank
(data types default to 0x0003 = 4–20 mA, UART word 0, device address,
software version 0x0064; everything else 0). -/
def ModbusDevice.init (slave_id : ℤ) : ModbusDevice :=
  { holding_registers := fun a =>
      if 0x1000 ≤ a ∧ a ≤ 0x1007 then 0x0003
      else if a = 0x4000 then slave_id
      else if a = 0x8000 then 0x0064
      else 0
    current_baudrate := 9600
    current_parity := .N
    slave_id := slave_id }

/-- Point update of the holding-register bank
(`holding_registers.setValues(addr, [v])`). -/
def setReg (regs : ℕ → ℤ) (addr : ℕ) (v : ℤ) : ℕ → ℤ :=
  fun a => if a = addr then v else regs a

/-- `ModbusDevice.set_data_type`: validates channel 1..8 and data type
0..4; out-of-range input is silently ignored. -/
def ModbusDevice.set_data_type (d : ModbusDevice) (channel data_type : ℤ) : ModbusDevice :=
  if 1 ≤ channel ∧ channel ≤ 8 ∧ 0 ≤ data_type ∧ data_type ≤ 4 then
    { d with holding_registers :=
        setReg d.holding_registers (0x1000 + (channel - 1).toNat) data_type }
  else d

/-- `ModbusDevice.set_device_address`: validates 1..255; out-of-range
input is silently ignored. -/
def ModbusDevice.set_device_address (d : ModbusDevice) (address : ℤ) : ModbusDevice :=
  if 1 ≤ address ∧ address ≤ 255 then
    { d with holding_registers := setReg d.holding_registers 0x4000 address }
  else d

/-- `ModbusDevice.set_uart_params`: packs `(parity_code << 8) | baud_code`
into register 0x2000 with NO range validation, then decodes the runtime
baudrate/parity through the lookup tables with fallback 9600 / none.
Codes are modelled as `ℕ` (Python's `<<`/`|` on nonnegative ints). -/
def ModbusDevice.set_uart_params (d : ModbusDevice) (parity_code baud_code : ℕ) : ModbusDevice :=
  let value : ℕ := Nat.lor (Nat.shiftLeft parity_code 8) baud_code
  { d with holding_registers := setReg d.holding_registers 0x2000 (value : ℤ)
           current_baudrate := (BAUD_RATES baud_code).getD 9600
           current_parity := (PARITY_MODES parity_code).getD .N }

/-! ## Timing model (`timing.py`, classes `TimingStats` and `ESP32Timer`) -/

/-- `TimingStats`: ring buffer `deque(maxlen=100)` of response times plus
the all-time request counter. -/
structure TimingStats where
  response_times : List ℚ
  total_requests : ℕ
  deriving DecidableEq, Repr

/-- Fresh `TimingStats()`. -/
def TimingStats.init : TimingStats := { response_times := [], total_requests := 0 }

/-- `TimingStats.record`: append to the ring buffer, evicting the oldest
entries beyond capacity 100, and increment the all-time counter. -/
def TimingStats.record (st : TimingStats) (response_time_ms : ℚ) : TimingStats :=
  let l := st.response_times ++ [response_time_ms]
  { response_times := if 100 < l.length then l.drop (l.length - 100) else l
    total_requests := st.total_requests + 1 }

/-- Result of `TimingStats.get_stats`.  `jitter_sq_ms` holds the
population variance; the source reports `jitter_ms = variance ** 0.5`,
whose exact square root is irrational in general, so theorems about the
reported jitter go through its square. -/
structure StatsResult where
  avg_response_ms : ℚ
  min_response_ms : ℚ
  max_response_ms : ℚ
  jitter_sq_ms : ℚ
  total_requests : ℕ
  deriving DecidableEq, Repr

/-- `TimingStats.get_stats`: all-zero when no samples exist (avoiding the
division by zero), otherwise mean / min / max rounded to 2 decimals and
the population variance (squared jitter). -/
def TimingStats.get_stats (st : TimingStats) : StatsResult :=
  match st.response_times with
  | [] =>
      { avg_response_ms := 0, min_response_ms := 0, max_response_ms := 0,
        jitter_sq_ms := 0, total_requests := st.total_requests }
  | t :: ts =>
      let times := t :: ts
      let avg := times.sum / (times.length : ℚ)
      let min_time := ts.foldl min t
      let max_time := ts.foldl max t
      let variance :=
        if 1 < times.length then
          (times.map (fun x => (x - avg) ^ 2)).sum / (times.length : ℚ)
        else 0
      { avg_response_ms := pyRound2 avg
        min_response_ms := pyRound2 min_time
        max_response_ms := pyRound2 max_time
        jitter_sq_ms := variance
        total_requests := st.total_requests }

/-- State of `ESP32Timer`.  `rngIdx` is the cursor into the timer's random
stream: the operations take a stream `f : ℕ → ℚ` where `f i` is the i-th
standard uniform draw on [-1, 1), so `uniform(-J, J) = J * f i`. -/
structure ESP32Timer where
  base_delay_ms : ℚ
  jitter_ms : ℚ
  stats : TimingStats
  rngIdx : ℕ
  deriving DecidableEq, Repr

/-- `ESP32Timer.__init__`. -/
def ESP32Timer.init (base_delay_ms jitter_ms : ℚ) : ESP32Timer :=
  { base_delay_ms := base_delay_ms, jitter_ms := jitter_ms,
    stats := TimingStats.init, rngIdx := 0 }

/-- `ESP32Timer.delay`: draw a jitter from the shared stream, sleep for
`max(0, base + jitter)` seconds, record the measured elapsed
milliseconds into the stats, and return it.  The blocking sleep is
modelled as exact, so the measured elapsed time equals the requested
delay. -/
def ESP32Timer.delay (f : ℕ → ℚ) (t : ESP32Timer) : ℚ × ESP32Timer :=
  let base_delay := t.base_delay_ms / 1000
  let jitter := t.jitter_ms * f t.rngIdx / 1000
  let actual_delay := max 0 (base_delay + jitter)
  let elapsed_ms := actual_delay * 1000
  (elapsed_ms,
   { t with rngIdx := t.rngIdx + 1, stats := t.stats.record elapsed_ms })

/-- `ESP32Timer.get_delay_value`: compute the same distribution from the
same stream without sleeping and without recording; returns seconds. -/
def ESP32Timer.get_delay_value (f : ℕ → ℚ) (t : ESP32Timer) : ℚ × ESP32Timer :=
  let base_delay := t.base_delay_ms / 1000
  let jitter := t.jitter_ms * f t.rngIdx / 1000
  (max 0 (base_delay + jitter), { t with rngIdx := t.rngIdx + 1 })

/-- Register mapping as worded by the spec (for comparison with the
source's `current_to_modbus`): `register = round((code − MIN_CODE) /
(MAX_CODE − MIN_CODE) × 32767)`, clamped to [0, 32767]. -/
def specRegister (code : ℚ) : ℤ :=
  max 0 (min 32767
    (pyRound ((code - PressureSensor.MIN_CURRENT_MA) /
      (PressureSensor.MAX_CURRENT_MA - PressureSensor.MIN_CURRENT_MA) * 32767)))

/-- The all-zero random stream, used for concrete instances. -/
def u0 : ℕ → ℚ := fun _ => 0

/-- Concrete channel-1 simulator: start 0.5 bar, target 1 bar,
6 bar/min, built at time 0 with a zero-noise sensor. -/
def simA : PressureSimulator :=
  PressureSimulator.init u0 (PressureSensor.init 1 0 .gaussian) (1/2) 1 6 0

/-- Concrete channel-2 simulator, same configuration as `simA`. -/
def simB : PressureSimulator :=
  PressureSimulator.init u0 (PressureSensor.init 2 0 .gaussian) (1/2) 1 6 0

/-- Concrete idle two-simulator hub (defaults: drop rate 0.1 bar/s,
duration 5 s, affected sensor 1). -/
def hubCE : ModbusHub :=
  { simulators := [simA, simB], pressure_drop_rate := 1/10,
    pressure_drop_duration := 5, affected_sensor := 1,
    trigger_active := false, restore_timer := none, stored_state := none }

/-- Concrete hub with an active disturbance on its single simulator and
the snapshot (target 1 bar, rate 0.1 bar/s) stored. -/
def hubW : ModbusHub :=
  { simulators := [simA], pressure_drop_rate := 1/10,
    pressure_drop_duration := 5, affected_sensor := 1,
    trigger_active := true, restore_timer := some ⟨11/2, 1, 1, 1/10⟩,
    stored_state := some (1, 1/10) }

/-- The register-value invariant that actually holds for the sensor. -/
def SensorRegInv (s : PressureSensor) : Prop :=
  0 ≤ s.modbus_value ∧ s.modbus_value ≤ 43006

/-- The state invariant of a physical process reachable under
nonnegative rates: pressures within the device range [0, 1.6] and a
nonnegative stored rate. -/
def SimInv (s : PressureSimulator) : Prop :=
  0 ≤ s.current_pressure ∧ s.current_pressure ≤ 8/5 ∧
  0 ≤ s.target_pressure ∧ s.target_pressure ≤ 8/5 ∧
  0 ≤ s.start_pressure ∧ s.start_pressure ≤ 8/5 ∧
  0 ≤ s.rate_bar_per_sec

/-! ## Theorems -/

/-- `pyRound` rounds to the floor or to the floor plus one. -/
theorem pyRound_eq_floor_or (x : ℚ) : pyRound x = ⌊x⌋ ∨ pyRound x = ⌊x⌋ + 1 := by
  simp only [pyRound]
  split_ifs <;> simp

/-- For nonnegative arguments Python truncation is the floor. -/
theorem pyInt_nonneg_eq_floor (x : ℚ) (hx : 0 ≤ x) : pyInt x = ⌊x⌋ := by
  unfold pyInt
  exact if_pos hx

/-- The register conversion always lands in [0, 32767]. -/
theorem current_to_modbus_range (c : ℚ) :
    0 ≤ PressureSensor.current_to_modbus c ∧
    PressureSensor.current_to_modbus c ≤ 32767 := by
  unfold PressureSensor.current_to_modbus PressureSensor.MAX_MODBUS_VALUE
  constructor
  · exact le_max_left _ _
  · exact max_le (by norm_num) (min_le_left _ _)

/-- The fixed register value written by the over-range fault path. -/
theorem sensor_defect_register_value : pyInt ((25 - 4) / 16 * 32767 : ℚ) = 43006 := by
  norm_num [pyInt]

/-- Claim C6, counterexample: under the open-circuit fault the source sets
`current_ma = 0.0`, not the 4 mA bottom of the 4–20 mA current range
(`MIN_CURRENT_MA`), so "sets the transducer code to the minimum code (the
bottom of the current range)" is false at the concrete input
`update(0.8)` on a faulted channel-1 sensor. -/
theorem C6_counterexample :
    (((PressureSensor.init 1 2 .gaussian).set_fault
        (some .wire_break)).update (fun _ => 0) (4/5)).current_ma = 0 ∧
    ¬ ((((PressureSensor.init 1 2 .gaussian).set_fault
        (some .wire_break)).update (fun _ => 0) (4/5)).current_ma
      = PressureSensor.MIN_CURRENT_MA) := by
  norm_num [PressureSensor.init, PressureSensor.set_fault, PressureSensor.update,
    PressureSensor.MIN_CURRENT_MA]

/-- Claim C6 (amended): under the open-circuit fault mode, `update`
sets `measured_value` to 0, sets the transducer code to 0 mA (below the
4 mA bottom of the 4–20 mA range, i.e. no loop current), and sets the
register value to 0, regardless of the input value. -/
theorem C6_open_circuit (u : ℕ → ℚ) (s : PressureSensor) (tp : ℚ)
    (hf : s.fault_mode = some .wire_break) :
    (s.update u tp).measured_pressure = 0 ∧
    (s.update u tp).current_ma = 0 ∧
    (s.update u tp).modbus_value = 0 := by
  simp [PressureSensor.update, hf]

/-- Witness for `C6_open_circuit` at a concrete faulted sensor and input. -/
theorem C6_open_circuit_witness :
    ((((PressureSensor.init 1 2 .gaussian).set_fault
        (some .wire_break)).update (fun _ => 0) (4/5)).measured_pressure = 0 ∧
     (((PressureSensor.init 1 2 .gaussian).set_fault
        (some .wire_break)).update (fun _ => 0) (4/5)).current_ma = 0 ∧
     (((PressureSensor.init 1 2 .gaussian).set_fault
        (some .wire_break)).update (fun _ => 0) (4/5)).modbus_value = 0) :=
  C6_open_circuit (fun _ => 0)
    ((PressureSensor.init 1 2 .gaussian).set_fault (some .wire_break)) (4/5) rfl

/-- Python truncation lands on the floor or the floor plus one. -/
theorem pyInt_eq_floor_or (x : ℚ) : pyInt x = ⌊x⌋ ∨ pyInt x = ⌊x⌋ + 1 := by
  unfold pyInt
  split
  · exact Or.inl rfl
  · have hceil : ⌊-x⌋ = -⌈x⌉ := Int.floor_neg
    have h1 : ⌊x⌋ ≤ ⌈x⌉ := Int.floor_le_ceil x
    have h2 : ⌈x⌉ ≤ ⌊x⌋ + 1 := Int.ceil_le_floor_add_one x
    omega

/-- Clamped truncation and clamped rounding differ by at most one unit. -/
theorem clamp_pyInt_pyRound (x : ℚ) :
    |max 0 (min 32767 (pyInt x)) - max 0 (min 32767 (pyRound x))| ≤ 1 := by
  have h1 := pyInt_eq_floor_or x
  have h2 := pyRound_eq_floor_or x
  rw [abs_le]
  omega

/-- The source's truncated register value and the spec's rounded register
value differ by at most one unit. -/
theorem modbus_close_to_specRegister (c : ℚ) :
    |PressureSensor.current_to_modbus c - specRegister c| ≤ 1 := by
  have e1 : PressureSensor.current_to_modbus c =
      max 0 (min 32767 (pyInt ((c - PressureSensor.MIN_CURRENT_MA) /
        (PressureSensor.MAX_CURRENT_MA - PressureSensor.MIN_CURRENT_MA) * 32767))) := by
    simp [PressureSensor.current_to_modbus, PressureSensor.MAX_MODBUS_VALUE]
  rw [e1, specRegister]
  exact clamp_pyInt_pyRound _

/-- Claim C5: under no fault and zero noise, `update` computes the
transducer code by the linear mapping
`code = MIN_CODE + (measured / MAX) × (MAX_CODE − MIN_CODE)` exactly
(with `measured` the input clamped to [0, 1.6]), and the register value
matches the spec's rounded mapping `specRegister` within ±1 unit of
rounding (the source truncates with `int()` where the spec says round),
staying clamped in [0, 32767]. -/
theorem C5_zero_noise_mapping (u : ℕ → ℚ) (s : PressureSensor) (v : ℚ)
    (hf : s.fault_mode = none) (hn : s.noise_percent = 0) :
    (s.update u v).measured_pressure = clampQ 0 (8/5) v ∧
    (s.update u v).current_ma =
      PressureSensor.MIN_CURRENT_MA +
        ((s.update u v).measured_pressure / PressureSensor.MAX_PRESSURE_BAR) *
          (PressureSensor.MAX_CURRENT_MA - PressureSensor.MIN_CURRENT_MA) ∧
    |(s.update u v).modbus_value - specRegister ((s.update u v).current_ma)| ≤ 1 ∧
    0 ≤ (s.update u v).modbus_value ∧ (s.update u v).modbus_value ≤ 32767 := by
  have hupd :
      (s.update u v).measured_pressure = max 0 (min (8/5) v) ∧
      (s.update u v).current_ma =
        PressureSensor.pressure_to_current (max 0 (min (8/5) v)) ∧
      (s.update u v).modbus_value =
        PressureSensor.current_to_modbus
          (PressureSensor.pressure_to_current (max 0 (min (8/5) v))) := by
    simp [PressureSensor.update, hf, PressureSensor.add_noise, hn,
      PressureSensor.MIN_PRESSURE_BAR, PressureSensor.MAX_PRESSURE_BAR]
  refine ⟨?_, ?_, ?_, ?_, ?_⟩
  · rw [hupd.1]; simp [clampQ]
  · rw [hupd.2.1, hupd.1]; simp [PressureSensor.pressure_to_current]
  · rw [hupd.2.2, hupd.2.1]; exact modbus_close_to_specRegister _
  · rw [hupd.2.2]; exact (current_to_modbus_range _).1
  · rw [hupd.2.2]; exact (current_to_modbus_range _).2

/-- Witness for `C5_zero_noise_mapping` at a concrete zero-noise sensor
and input 0.8 bar. -/
theorem C5_zero_noise_mapping_witness :
    (((PressureSensor.init 1 0 .gaussian).update (fun _ => 0) (4/5)).measured_pressure
        = clampQ 0 (8/5) (4/5) ∧
     ((PressureSensor.init 1 0 .gaussian).update (fun _ => 0) (4/5)).current_ma =
        PressureSensor.MIN_CURRENT_MA +
          ((((PressureSensor.init 1 0 .gaussian).update (fun _ => 0) (4/5)).measured_pressure) /
              PressureSensor.MAX_PRESSURE_BAR) *
            (PressureSensor.MAX_CURRENT_MA - PressureSensor.MIN_CURRENT_MA) ∧
     |(((PressureSensor.init 1 0 .gaussian).update (fun _ => 0) (4/5)).modbus_value) -
        specRegister (((PressureSensor.init 1 0 .gaussian).update (fun _ => 0) (4/5)).current_ma)| ≤ 1 ∧
     0 ≤ ((PressureSensor.init 1 0 .gaussian).update (fun _ => 0) (4/5)).modbus_value ∧
     ((PressureSensor.init 1 0 .gaussian).update (fun _ => 0) (4/5)).modbus_value ≤ 32767) :=
  C5_zero_noise_mapping (fun _ => 0) (PressureSensor.init 1 0 .gaussian) (4/5) rfl rfl

/-- Claim C1, counterexample: an `update` under the over-range fault
(`sensor_defect`) writes the register value
`int((25.0 - 4.0) / 16.0 * 32767) = 43006`, which is NOT clamped and
exceeds 32767, so the register value does not stay in [0, 32767] under
the over-range fault mode. -/
theorem C1_counterexample :
    (((PressureSensor.init 1 2 .gaussian).set_fault
        (some .sensor_defect)).update (fun _ => 0) (1/2)).modbus_value = 43006 ∧
    ¬ ((((PressureSensor.init 1 2 .gaussian).set_fault
        (some .sensor_defect)).update (fun _ => 0) (1/2)).modbus_value ≤ 32767) := by
  norm_num [PressureSensor.init, PressureSensor.set_fault, PressureSensor.update, pyInt]

/-- Every public call preserves the register-value invariant. -/
theorem sensorStep_preserves_reg_inv (u : ℕ → ℚ) (s : PressureSensor) (op : SensorOp)
    (h : SensorRegInv s) : SensorRegInv (sensorStep u s op) := by
  cases op with
  | upd tp =>
      unfold sensorStep PressureSensor.update
      cases hf : s.fault_mode with
      | none =>
          simp only [hf]
          constructor
          · exact (current_to_modbus_range _).1
          · exact le_trans (current_to_modbus_range _).2 (by norm_num)
      | some fm =>
          cases fm with
          | wire_break => simp only [hf]; constructor <;> norm_num [SensorRegInv]
          | sensor_defect =>
              simp only [hf]
              constructor <;> simp [SensorRegInv, sensor_defect_register_value]
  | fault fm => exact h
  | noiseCfg p t =>
      unfold sensorStep PressureSensor.set_noise_config
      cases p <;> cases t <;> exact h

/-- The invariant holds along every run from a freshly constructed sensor. -/
theorem sensorRun_reg_inv (u : ℕ → ℚ) (ops : List SensorOp) (s : PressureSensor)
    (h : SensorRegInv s) : SensorRegInv (sensorRun u s ops) := by
  induction ops generalizing s with
  | nil => exact h
  | cons op ops ih => exact ih _ (sensorStep_preserves_reg_inv u s op h)

/-- Claim C1 (amended): for every sensor and every sequence of public
calls from construction, the register value lies in [0, 43006]; every
`update` performed while the fault mode is not over-range produces a
value in [0, 32767], while an `update` under the over-range fault
produces exactly the out-of-band constant 43006 > 32767. -/
theorem C1_register_range :
    (∀ (u : ℕ → ℚ) (channel : ℕ) (p : ℚ) (nt : NoiseType) (ops : List SensorOp),
        0 ≤ (sensorRun u (PressureSensor.init channel p nt) ops).modbus_value ∧
        (sensorRun u (PressureSensor.init channel p nt) ops).modbus_value ≤ 43006) ∧
    (∀ (u : ℕ → ℚ) (s : PressureSensor) (tp : ℚ),
        s.fault_mode ≠ some .sensor_defect →
        0 ≤ (s.update u tp).modbus_value ∧ (s.update u tp).modbus_value ≤ 32767) ∧
    (∀ (u : ℕ → ℚ) (s : PressureSensor) (tp : ℚ),
        s.fault_mode = some .sensor_defect →
        (s.update u tp).modbus_value = 43006) := by
  refine ⟨?_, ?_, ?_⟩
  · intro u channel p nt ops
    exact sensorRun_reg_inv u ops _ (by constructor <;> norm_num [PressureSensor.init])
  · intro u s tp hf
    unfold PressureSensor.update
    cases hfm : s.fault_mode with
    | none =>
        simp only [hfm]
        exact ⟨(current_to_modbus_range _).1, (current_to_modbus_range _).2⟩
    | some fm =>
        cases fm with
        | wire_break => simp only [hfm]; norm_num
        | sensor_defect => exact absurd hfm hf
  · intro u s tp hf
    unfold PressureSensor.update
    simp only [hf]
    simp [sensor_defect_register_value]

/-- Witness for `C1_register_range`: a concrete run, a concrete
non-over-range `update`, and a concrete over-range `update`. -/
theorem C1_register_range_witness :
    (0 ≤ (sensorRun (fun _ => 0) (PressureSensor.init 1 2 .gaussian)
        [.upd (1/2), .fault (some .sensor_defect), .upd 1]).modbus_value ∧
     (sensorRun (fun _ => 0) (PressureSensor.init 1 2 .gaussian)
        [.upd (1/2), .fault (some .sensor_defect), .upd 1]).modbus_value ≤ 43006) ∧
    (0 ≤ ((PressureSensor.init 1 2 .gaussian).update (fun _ => 0) (1/2)).modbus_value ∧
     ((PressureSensor.init 1 2 .gaussian).update (fun _ => 0) (1/2)).modbus_value ≤ 32767) ∧
    ((((PressureSensor.init 1 2 .gaussian).set_fault
        (some .sensor_defect)).update (fun _ => 0) (1/2)).modbus_value = 43006) :=
  ⟨C1_register_range.1 (fun _ => 0) 1 2 .gaussian [.upd (1/2), .fault (some .sensor_defect), .upd 1],
   C1_register_range.2.1 (fun _ => 0) (PressureSensor.init 1 2 .gaussian) (1/2) (by simp [PressureSensor.init]),
   C1_register_range.2.2 (fun _ => 0)
     ((PressureSensor.init 1 2 .gaussian).set_fault (some .sensor_defect)) (1/2) rfl⟩

/-- Claim C3, counterexample: `set_uart_params` performs no range
validation — the out-of-range codes parity=7, baud=99 are packed and
written into configuration register 0x2000, changing it (from 0 to
`(7 << 8) | 99 = 1891`), so it does not "leave the corresponding
configuration register unchanged" on out-of-range input. -/
theorem C3_counterexample :
    ((ModbusDevice.init 1).set_uart_params 7 99).holding_registers 0x2000 = 1891 ∧
    ((ModbusDevice.init 1).set_uart_params 7 99).holding_registers 0x2000 ≠
      (ModbusDevice.init 1).holding_registers 0x2000 := by
  have hval : Nat.lor 1792 99 = 1891 := by decide
  constructor
  · simp [ModbusDevice.init, ModbusDevice.set_uart_params, setReg, hval]
  · simp [ModbusDevice.init, ModbusDevice.set_uart_params, setReg, hval]

/-- Claim C3 (amended): `set_data_type` (channel 1..8, data type 0..4)
and `set_device_address` (address 1..255) validate their ranges and
silently ignore out-of-range input, leaving the device state completely
unchanged and raising nothing; `set_uart_params`, by contrast, performs
no validation: it packs any parity/baud codes into register 0x2000
(leaving every other register unchanged), and unknown codes only fall
back to the 9600/none defaults in the decoded runtime values. -/
theorem C3_config_validation :
    (∀ (d : ModbusDevice) (channel data_type : ℤ),
        ¬(1 ≤ channel ∧ channel ≤ 8 ∧ 0 ≤ data_type ∧ data_type ≤ 4) →
        d.set_data_type channel data_type = d) ∧
    (∀ (d : ModbusDevice) (address : ℤ),
        ¬(1 ≤ address ∧ address ≤ 255) →
        d.set_device_address address = d) ∧
    (∀ (d : ModbusDevice) (parity_code baud_code : ℕ),
        (d.set_uart_params parity_code baud_code).holding_registers 0x2000 =
          ((Nat.lor (Nat.shiftLeft parity_code 8) baud_code : ℕ) : ℤ) ∧
        ∀ a : ℕ, a ≠ 0x2000 →
          (d.set_uart_params parity_code baud_code).holding_registers a =
            d.holding_registers a) := by
  refine ⟨?_, ?_, ?_⟩
  · intro d channel data_type hbad
    simp [ModbusDevice.set_data_type, hbad]
  · intro d address hbad
    simp [ModbusDevice.set_device_address, hbad]
  · intro d parity_code baud_code
    constructor
    · simp [ModbusDevice.set_uart_params, setReg]
    · intro a ha
      simp [ModbusDevice.set_uart_params, setReg, ha]

/-- Witness for `C3_config_validation`: out-of-range channel 9 for
`set_data_type`, out-of-range address 300 for `set_device_address`, and
arbitrary codes for `set_uart_params`. -/
theorem C3_config_validation_witness :
    ((ModbusDevice.init 1).set_data_type 9 2 = ModbusDevice.init 1) ∧
    ((ModbusDevice.init 1).set_device_address 300 = ModbusDevice.init 1) ∧
    ((ModbusDevice.init 1).set_uart_params 7 99).holding_registers 0x1000 =
      (ModbusDevice.init 1).holding_registers 0x1000 :=
  ⟨C3_config_validation.1 (ModbusDevice.init 1) 9 2 (by norm_num),
   C3_config_validation.2.1 (ModbusDevice.init 1) 300 (by norm_num),
   (C3_config_validation.2.2 (ModbusDevice.init 1) 7 99).2 0x1000 (by norm_num)⟩

/-- Folding `record` over any sample list adds the list length to the
all-time counter. -/
theorem record_foldl_total (samples : List ℚ) (st : TimingStats) :
    (samples.foldl TimingStats.record st).total_requests =
      st.total_requests + samples.length := by
  induction samples generalizing st with
  | nil => simp
  | cons x xs ih =>
      simp only [List.foldl_cons, ih, TimingStats.record, List.length_cons]
      omega

/-- Claim C8: after exactly N recorded samples `total_requests` equals N
— for every N, including N beyond the ring-buffer capacity of 100 (the
all-time counter is never reset by buffer eviction) — and with zero
samples `get_stats` returns 0.0 for average, min, max and jitter
(reported jitter is the square root of `jitter_sq_ms`) rather than
raising a division error. -/
theorem C8_timing_stats :
    (∀ samples : List ℚ,
        (samples.foldl TimingStats.record TimingStats.init).total_requests =
          samples.length) ∧
    TimingStats.init.get_stats =
      { avg_response_ms := 0, min_response_ms := 0, max_response_ms := 0,
        jitter_sq_ms := 0, total_requests := 0 } ∧
    Real.sqrt ((TimingStats.init.get_stats.jitter_sq_ms : ℝ)) = 0 := by
  refine ⟨?_, rfl, ?_⟩
  · intro samples
    rw [record_foldl_total]
    simp [TimingStats.init]
  · rw [show TimingStats.init.get_stats.jitter_sq_ms = 0 from rfl]
    simp

/-- Claim C9: two sensors independently constructed with the same seed
and the same channel number (hence the same seeded stream
`random.Random(seed + channel)`, regardless of what fresh entropy each
construction would otherwise have drawn) produce identical traces of
`(measured_value, current_ma, modbus_value)` on the identical sequence
of update calls with identical noise configuration. -/
theorem C9_seed_determinism (gen : ℕ → ℕ → ℚ) (channel : ℕ) (noise_percent : ℚ)
    (noise_type : NoiseType) (seed : ℕ) (fresh1 fresh2 : ℕ → ℚ) (inputs : List ℚ) :
    (SensorRT.mk2 gen channel noise_percent noise_type (some seed) fresh1).run inputs =
    (SensorRT.mk2 gen channel noise_percent noise_type (some seed) fresh2).run inputs := rfl

/-- Claim C10: `get_delay_value` leaves the timing statistics completely
unchanged (no sample recorded, `total_requests` unchanged) but advances
the same random stream that `delay()` draws from: after an inserted
`get_delay_value`, the next `delay()` computes its value from the draw
at index idx+2 instead of idx+1, and there are seeded streams on which
those two values differ. -/
theorem C10_get_delay_value_frame :
    (∀ (f : ℕ → ℚ) (t : ESP32Timer),
        (t.get_delay_value f).2.stats = t.stats ∧
        (t.get_delay_value f).2.rngIdx = t.rngIdx + 1 ∧
        (t.get_delay_value f).1 =
          max 0 (t.base_delay_ms / 1000 + t.jitter_ms * f t.rngIdx / 1000)) ∧
    (∀ (f : ℕ → ℚ) (t : ESP32Timer),
        (((t.delay f).2).delay f).1 =
          max 0 (t.base_delay_ms / 1000 + t.jitter_ms * f (t.rngIdx + 1) / 1000) * 1000 ∧
        ((((t.delay f).2).get_delay_value f).2.delay f).1 =
          max 0 (t.base_delay_ms / 1000 + t.jitter_ms * f (t.rngIdx + 2) / 1000) * 1000) ∧
    (∃ (f : ℕ → ℚ) (t : ESP32Timer),
        (((t.delay f).2).delay f).1 ≠ ((((t.delay f).2).get_delay_value f).2.delay f).1) := by
  refine ⟨?_, ?_, ?_⟩
  · intro f t
    exact ⟨rfl, rfl, rfl⟩
  · intro f t
    exact ⟨rfl, rfl⟩
  · refine ⟨fun i => i, ESP32Timer.init 10 2, ?_⟩
    simp only [ESP32Timer.init, ESP32Timer.delay, ESP32Timer.get_delay_value]
    norm_num [max_def]

/-- Claim C7: a trigger while no disturbance is active whose affected
channel is invalid (outside the configured channel count) is rejected
atomically: the hub state is exactly unchanged (active rolled back to
false, no snapshot stored, no restoration scheduled) and no event is
emitted, hence no simulator's target, rate or running flag changes. -/
theorem C7_invalid_trigger_rejected (now : ℚ) (h : ModbusHub)
    (tp ds r : Option ℚ) (sensor : Option ℤ)
    (hact : h.trigger_active = false)
    (hinv : ¬(0 < sensor.getD h.affected_sensor ∧
              sensor.getD h.affected_sensor ≤ (h.simulators.length : ℤ))) :
    h.trigger_pressure_drop now tp ds r sensor = (h, []) := by
  obtain ⟨sims, rate, dur, aff, act, timer, stored⟩ := h
  simp only at hact hinv
  subst hact
  simp [ModbusHub.trigger_pressure_drop, hinv]

/-- Witness for `C7_invalid_trigger_rejected`: a one-simulator hub and a
trigger naming channel 5. -/
theorem C7_invalid_trigger_rejected_witness :
    ModbusHub.trigger_pressure_drop 0
      { simulators := [dummySim], pressure_drop_rate := 1/10,
        pressure_drop_duration := 5, affected_sensor := 1,
        trigger_active := false, restore_timer := none, stored_state := none }
      none none none (some 5) =
    ({ simulators := [dummySim], pressure_drop_rate := 1/10,
       pressure_drop_duration := 5, affected_sensor := 1,
       trigger_active := false, restore_timer := none, stored_state := none }, []) :=
  C7_invalid_trigger_rejected 0 _ none none none (some 5) rfl (by norm_num)

/-- Claim C2 (amended): if `trigger_pressure_drop` is called while a
disturbance is active and the cancelling call's `sensor` argument
resolves (via the hub's `affected_sensor` default) to a valid channel
index, then the pending scheduled restoration is cancelled, the active
flag and the stored snapshot are cleared, the simulator resolved by the
CANCELLING call is stopped, and that simulator's target and rate are
restored exactly — bit-for-bit in the exact-rational model — to the
stored snapshot (whose target is a previously clamped value in
[0, 1.6]), for every value the snapshot may hold.  The original claim
additionally demanded this for every `sensor` argument; it fails when
the cancelling call names a different channel than the one the
disturbance was started on (see the counterexample). -/
theorem C2_cancel_restores (now : ℚ) (h : ModbusHub)
    (tp ds r : Option ℚ) (sensor : Option ℤ) (st : ℚ × ℚ)
    (hact : h.trigger_active = true)
    (hst : h.stored_state = some st)
    (h0 : 0 ≤ st.1) (h1 : st.1 ≤ 8/5)
    (hv : 0 < sensor.getD h.affected_sensor ∧
          sensor.getD h.affected_sensor ≤ (h.simulators.length : ℤ)) :
    (h.trigger_pressure_drop now tp ds r sensor).1.trigger_active = false ∧
    (h.trigger_pressure_drop now tp ds r sensor).1.restore_timer = none ∧
    (h.trigger_pressure_drop now tp ds r sensor).1.stored_state = none ∧
    ((h.trigger_pressure_drop now tp ds r sensor).1.simulators.getD
        ((sensor.getD h.affected_sensor - 1).toNat) dummySim).running = false ∧
    ((h.trigger_pressure_drop now tp ds r sensor).1.simulators.getD
        ((sensor.getD h.affected_sensor - 1).toNat) dummySim).target_pressure = st.1 ∧
    ((h.trigger_pressure_drop now tp ds r sensor).1.simulators.getD
        ((sensor.getD h.affected_sensor - 1).toNat) dummySim).rate_bar_per_sec = st.2 ∧
    (h.trigger_pressure_drop now tp ds r sensor).2 =
      [.pressure_drop_stopped (sensor.getD h.affected_sensor)] := by
  have hidx : (sensor.getD h.affected_sensor - 1).toNat < h.simulators.length := by
    omega
  have hres : h.trigger_pressure_drop now tp ds r sensor =
      ({ h with
          restore_timer := none
          trigger_active := false
          simulators := h.simulators.set ((sensor.getD h.affected_sensor - 1).toNat)
            ((((h.simulators.getD ((sensor.getD h.affected_sensor - 1).toNat)
                dummySim).stop).set_target st.1).set_rate (st.2 * 60))
          stored_state := none },
       [.pressure_drop_stopped (sensor.getD h.affected_sensor)]) := by
    rw [ModbusHub.trigger_pressure_drop]
    simp only [hact, if_true, hst]
    rw [if_pos hv]
  rw [hres]
  refine ⟨rfl, rfl, rfl, ?_, ?_, ?_, rfl⟩ <;>
    simp only [List.getD_eq_getElem?_getD, List.getElem?_set_self hidx, Option.getD_some,
      PressureSimulator.set_rate, PressureSimulator.set_target, PressureSimulator.stop] <;>
    first
      | rfl
      | rw [min_eq_right h1, max_eq_right h0]
      | exact mul_div_cancel_right₀ st.2 (by norm_num)

/-- Witness for `C2_cancel_restores` at the concrete active hub `hubW`,
cancelling with `sensor = none`. -/
theorem C2_cancel_restores_witness :
    (ModbusHub.trigger_pressure_drop 0 hubW none none none none).1.trigger_active = false ∧
    (ModbusHub.trigger_pressure_drop 0 hubW none none none none).1.restore_timer = none ∧
    (ModbusHub.trigger_pressure_drop 0 hubW none none none none).1.stored_state = none ∧
    ((ModbusHub.trigger_pressure_drop 0 hubW none none none none).1.simulators.getD
        0 dummySim).running = false ∧
    ((ModbusHub.trigger_pressure_drop 0 hubW none none none none).1.simulators.getD
        0 dummySim).target_pressure = 1 ∧
    ((ModbusHub.trigger_pressure_drop 0 hubW none none none none).1.simulators.getD
        0 dummySim).rate_bar_per_sec = 1/10 ∧
    (ModbusHub.trigger_pressure_drop 0 hubW none none none none).2 =
      [.pressure_drop_stopped 1] := by
  have key := C2_cancel_restores 0 hubW none none none none (1, 1/10)
    rfl rfl (by norm_num) (by norm_num) (by constructor <;> simp [hubW])
  simpa [hubW] using key

/-- Claim C2, counterexample: trigger the default sensor (channel 1) on
the idle two-channel hub `hubCE`, then "cancel" by calling trigger again
with `sensor = 2`.  The snapshot of the disturbed simulator (target 1
bar, rate 0.1 bar/s) is applied to simulator 2, while the actually
disturbed simulator 1 is neither stopped (still running) nor restored
(target is still the drop target 0, not the snapshot's 1 bar) — so the
claim as stated fails for this combination of arguments of the
cancelling call. -/
theorem C2_counterexample :
    ((((hubCE.trigger_pressure_drop 0 none none none none).1.trigger_pressure_drop
        0 none none none (some 2)).1.simulators.getD 0 dummySim).running = true) ∧
    ¬ ((((hubCE.trigger_pressure_drop 0 none none none none).1.trigger_pressure_drop
        0 none none none (some 2)).1.simulators.getD 0 dummySim).target_pressure = 1) ∧
    (hubCE.trigger_pressure_drop 0 none none none none).1.stored_state =
      some (1, 1/10) := by
  have hstep1 : hubCE.trigger_pressure_drop 0 none none none none =
      ({ hubCE with
          trigger_active := true
          stored_state := some (1, 1/10)
          simulators := [((simA.set_target 0).set_rate 6).start 0, simB]
          restore_timer := some ⟨11/2, 1, 1, 1/10⟩ },
       [.pressure_drop 1 (1/2) 0 (1/10) 5]) := by
    rw [ModbusHub.trigger_pressure_drop]
    norm_num [hubCE, simA, simB, PressureSimulator.init, PressureSimulator.set_target,
      PressureSimulator.set_rate, PressureSimulator.start, min_def, max_def]
  rw [hstep1]
  rw [ModbusHub.trigger_pressure_drop]
  norm_num [PressureSimulator.set_target, PressureSimulator.set_rate,
    PressureSimulator.stop, PressureSimulator.start, simA, simB,
    PressureSimulator.init, hubCE, min_def, max_def]

/-- Claim C4, counterexample: `set_rate` accepts a negative rate, and an
`update` then moves `current_value` AWAY from the target without bound:
from a validated configuration (start 0.5 bar, target 1 bar), calling
`set_rate(-60)`, `start()` and then `update()` ten seconds later drives
`current_value` to -9.5 bar, far outside [0, 1.6]. -/
theorem C4_counterexample :
    ((((PressureSimulator.init u0 (PressureSensor.init 1 0 .gaussian) (1/2) 1 6 0
        ).set_rate (-60)).start 0).update u0 10).current_pressure < 0 := by
  norm_num [PressureSimulator.init, PressureSimulator.set_rate,
    PressureSimulator.start, PressureSimulator.update, min_def]

/-- A timestamped `update` preserves the process invariant. -/
theorem simUpdate_SimInv (u : ℕ → ℚ) (s : PressureSimulator) (now : ℚ)
    (ht : s.last_update ≤ now) (hinv : SimInv s) : SimInv (s.update u now) := by
  obtain ⟨hc0, hc1, ht0, ht1, hs0, hs1, hr⟩ := hinv
  have hd : 0 ≤ s.rate_bar_per_sec * (now - s.last_update) :=
    mul_nonneg hr (by linarith)
  simp only [PressureSimulator.update]
  split_ifs with hrun hlt hgt
  · exact ⟨hc0, hc1, ht0, ht1, hs0, hs1, hr⟩
  · refine ⟨?_, ?_, ht0, ht1, hs0, hs1, hr⟩
    · exact le_min (by linarith) ht0
    · exact le_trans (min_le_right _ _) ht1
  · refine ⟨?_, ?_, ht0, ht1, hs0, hs1, hr⟩
    · exact le_trans ht0 (le_max_right _ _)
    · exact max_le (by linarith) ht1
  · exact ⟨hc0, hc1, ht0, ht1, hs0, hs1, hr⟩

/-- `update` never changes target, rate or start, and leaves the
timestamp at `now` (running) or unchanged (stopped). -/
theorem simUpdate_frame (u : ℕ → ℚ) (s : PressureSimulator) (now : ℚ) :
    (s.update u now).target_pressure = s.target_pressure ∧
    (s.update u now).rate_bar_per_sec = s.rate_bar_per_sec ∧
    (s.update u now).start_pressure = s.start_pressure ∧
    ((s.update u now).last_update = now ∨ (s.update u now).last_update = s.last_update) := by
  simp only [PressureSimulator.update]
  split_ifs <;> simp

/-- Every state reachable under nonnegative rates satisfies the process
invariant; in particular `current_value` stays within [0, 1.6]. -/
theorem SimReachNN_inv (u : ℕ → ℚ) (s : PressureSimulator)
    (h : SimReachNN u s) : SimInv s := by
  induction h with
  | init sensor sp tp rpm now hsp0 hsp1 htp0 htp1 hr =>
      exact ⟨hsp0, hsp1, htp0, htp1, hsp0, hsp1, div_nonneg hr.le (by norm_num)⟩
  | upd s now h ht ih => exact simUpdate_SimInv u s now ht ih
  | start s now h ht ih => exact ih
  | stop s h ih => exact ih
  | reset s h ih =>
      obtain ⟨hc0, hc1, ht0, ht1, hs0, hs1, hr⟩ := ih
      exact ⟨hs0, hs1, ht0, ht1, hs0, hs1, hr⟩
  | set_target s t h ih =>
      obtain ⟨hc0, hc1, ht0, ht1, hs0, hs1, hr⟩ := ih
      refine ⟨hc0, hc1, ?_, ?_, hs0, hs1, hr⟩
      · exact le_max_left _ _
      · exact max_le (by norm_num) (min_le_left _ _)
  | set_rate s r h hr ih =>
      obtain ⟨hc0, hc1, ht0, ht1, hs0, hs1, _⟩ := ih
      exact ⟨hc0, hc1, ht0, ht1, hs0, hs1, div_nonneg hr (by norm_num)⟩
  | set_pressure s p h ih =>
      obtain ⟨hc0, hc1, ht0, ht1, hs0, hs1, hr⟩ := ih
      refine ⟨?_, ?_, ht0, ht1, hs0, hs1, hr⟩
      · exact le_max_left _ _
      · exact max_le (by norm_num) (min_le_left _ _)

/-- One tick starting at or below the target, with a nonnegative rate
and a monotone clock, moves `current_value` up but never above the
target. -/
theorem simUpdate_below (u : ℕ → ℚ) (s : PressureSimulator) (now : ℚ)
    (hr : 0 ≤ s.rate_bar_per_sec) (ht : s.last_update ≤ now)
    (hbt : s.current_pressure ≤ s.target_pressure) :
    s.current_pressure ≤ (s.update u now).current_pressure ∧
    (s.update u now).current_pressure ≤ s.target_pressure := by
  have hd : 0 ≤ s.rate_bar_per_sec * (now - s.last_update) :=
    mul_nonneg hr (by linarith)
  simp only [PressureSimulator.update]
  split_ifs with hrun hlt hgt
  · exact ⟨le_refl _, hbt⟩
  · exact ⟨le_min (by linarith) hbt, min_le_right _ _⟩
  · exact absurd hgt (by linarith)
  · exact ⟨le_refl _, hbt⟩

/-- One tick starting at or above the target, with a nonnegative rate
and a monotone clock, moves `current_value` down but never below the
target. -/
theorem simUpdate_above (u : ℕ → ℚ) (s : PressureSimulator) (now : ℚ)
    (hr : 0 ≤ s.rate_bar_per_sec) (ht : s.last_update ≤ now)
    (hab : s.target_pressure ≤ s.current_pressure) :
    (s.update u now).current_pressure ≤ s.current_pressure ∧
    s.target_pressure ≤ (s.update u now).current_pressure := by
  have hd : 0 ≤ s.rate_bar_per_sec * (now - s.last_update) :=
    mul_nonneg hr (by linarith)
  simp only [PressureSimulator.update]
  split_ifs with hrun hlt hgt
  · exact ⟨le_refl _, hab⟩
  · exact absurd hlt (by linarith)
  · exact ⟨max_le (by linarith) hab, le_max_right _ _⟩
  · exact ⟨le_refl _, hab⟩

/-- Repeated ticks at nondecreasing wall-clock times, starting at or
below the target with a nonnegative rate: `current_value` is
nondecreasing and never exceeds the target at any tick. -/
theorem simUpdates_below (u : ℕ → ℚ) (ts : List ℚ) (s : PressureSimulator)
    (hr : 0 ≤ s.rate_bar_per_sec)
    (hch : List.Chain' (fun a b : ℚ => a ≤ b) (s.last_update :: ts))
    (hbt : s.current_pressure ≤ s.target_pressure) :
    s.current_pressure ≤ (simUpdates u s ts).current_pressure ∧
    (simUpdates u s ts).current_pressure ≤ s.target_pressure := by
  induction ts generalizing s with
  | nil => exact ⟨le_refl _, hbt⟩
  | cons t ts ih =>
      have hle : s.last_update ≤ t := (List.chain'_cons.mp hch).1
      have hch1 : List.Chain' (fun a b : ℚ => a ≤ b) (t :: ts) :=
        (List.chain'_cons.mp hch).2
      have hstep := simUpdate_below u s t hr hle hbt
      have hframe := simUpdate_frame u s t
      have hch' : List.Chain' (fun a b : ℚ => a ≤ b) ((s.update u t).last_update :: ts) := by
        rcases hframe.2.2.2 with hl | hl
        · rw [hl]; exact hch1
        · rw [hl]
          cases ts with
          | nil => simp
          | cons t2 ts2 =>
              exact List.chain'_cons.mpr
                ⟨le_trans hle (List.chain'_cons.mp hch1).1, (List.chain'_cons.mp hch1).2⟩
      have hbt' : (s.update u t).current_pressure ≤ (s.update u t).target_pressure := by
        rw [hframe.1]; exact hstep.2
      have hr' : 0 ≤ (s.update u t).rate_bar_per_sec := by rw [hframe.2.1]; exact hr
      have hrec := ih (s.update u t) hr' hch' hbt'
      have hfold : simUpdates u s (t :: ts) = simUpdates u (s.update u t) ts := rfl
      rw [hfold]
      constructor
      · exact le_trans hstep.1 hrec.1
      · calc (simUpdates u (s.update u t) ts).current_pressure
            ≤ (s.update u t).target_pressure := hrec.2
          _ = s.target_pressure := hframe.1

/-- Repeated ticks at nondecreasing wall-clock times, starting at or
above the target with a nonnegative rate: `current_value` is
nonincreasing and never drops below the target at any tick. -/
theorem simUpdates_above (u : ℕ → ℚ) (ts : List ℚ) (s : PressureSimulator)
    (hr : 0 ≤ s.rate_bar_per_sec)
    (hch : List.Chain' (fun a b : ℚ => a ≤ b) (s.last_update :: ts))
    (hab : s.target_pressure ≤ s.current_pressure) :
    (simUpdates u s ts).current_pressure ≤ s.current_pressure ∧
    s.target_pressure ≤ (simUpdates u s ts).current_pressure := by
  induction ts generalizing s with
  | nil => exact ⟨le_refl _, hab⟩
  | cons t ts ih =>
      have hle : s.last_update ≤ t := (List.chain'_cons.mp hch).1
      have hch1 : List.Chain' (fun a b : ℚ => a ≤ b) (t :: ts) :=
        (List.chain'_cons.mp hch).2
      have hstep := simUpdate_above u s t hr hle hab
      have hframe := simUpdate_frame u s t
      have hch' : List.Chain' (fun a b : ℚ => a ≤ b) ((s.update u t).last_update :: ts) := by
        rcases hframe.2.2.2 with hl | hl
        · rw [hl]; exact hch1
        · rw [hl]
          cases ts with
          | nil => simp
          | cons t2 ts2 =>
              exact List.chain'_cons.mpr
                ⟨le_trans hle (List.chain'_cons.mp hch1).1, (List.chain'_cons.mp hch1).2⟩
      have hab' : (s.update u t).target_pressure ≤ (s.update u t).current_pressure := by
        rw [hframe.1]; exact hstep.2
      have hr' : 0 ≤ (s.update u t).rate_bar_per_sec := by rw [hframe.2.1]; exact hr
      have hrec := ih (s.update u t) hr' hch' hab'
      have hfold : simUpdates u s (t :: ts) = simUpdates u (s.update u t) ts := rfl
      rw [hfold]
      constructor
      · exact le_trans hrec.1 hstep.1
      · calc s.target_pressure = (s.update u t).target_pressure := hframe.1.symm
          _ ≤ (simUpdates u (s.update u t) ts).current_pressure := hrec.2

/-- Claim C4 (amended): for every state reachable by any interleaving of
update, start, stop, reset, set_target, set_rate, set_pressure from a
validated configuration, PROVIDED every `set_rate` call passes a
nonnegative rate (the source accepts any value and a negative rate
breaks the invariant, see the counterexample) and wall-clock time is
monotone, `current_value` lies in [0, 1.6]; and from any such state a
run of updates at nondecreasing times moves `current_value`
monotonically toward `target_value` without ever overshooting it:
starting at or below the target it never exceeds the target at any
tick, starting at or above it never goes below. -/
theorem C4_process_invariant :
    (∀ (u : ℕ → ℚ) (s : PressureSimulator), SimReachNN u s →
        0 ≤ s.current_pressure ∧ s.current_pressure ≤ 8/5) ∧
    (∀ (u : ℕ → ℚ) (s : PressureSimulator) (ts : List ℚ),
        SimReachNN u s →
        List.Chain' (fun a b : ℚ => a ≤ b) (s.last_update :: ts) →
        (s.current_pressure ≤ s.target_pressure →
            s.current_pressure ≤ (simUpdates u s ts).current_pressure ∧
            (simUpdates u s ts).current_pressure ≤ s.target_pressure) ∧
        (s.target_pressure ≤ s.current_pressure →
            (simUpdates u s ts).current_pressure ≤ s.current_pressure ∧
            s.target_pressure ≤ (simUpdates u s ts).current_pressure)) := by
  constructor
  · intro u s h
    have hinv := SimReachNN_inv u s h
    exact ⟨hinv.1, hinv.2.1⟩
  · intro u s ts h hch
    have hinv := SimReachNN_inv u s h
    exact ⟨fun hbt => simUpdates_below u ts s hinv.2.2.2.2.2.2 hch hbt,
           fun hab => simUpdates_above u ts s hinv.2.2.2.2.2.2 hch hab⟩

/-- Witness for `C4_process_invariant` at the freshly constructed
simulator `simA` and one update tick at time 1. -/
theorem C4_process_invariant_witness :
    (0 ≤ simA.current_pressure ∧ simA.current_pressure ≤ 8/5) ∧
    (simA.current_pressure ≤ (simUpdates u0 simA [1]).current_pressure ∧
     (simUpdates u0 simA [1]).current_pressure ≤ simA.target_pressure) := by
  have hreach : SimReachNN u0 simA :=
    SimReachNN.init (PressureSensor.init 1 0 .gaussian) (1/2) 1 6 0
      (by norm_num) (by norm_num) (by norm_num) (by norm_num) (by norm_num)
  have hch : List.Chain' (fun a b : ℚ => a ≤ b) (simA.last_update :: [1]) := by
    simp [simA, PressureSimulator.init]
  have h1 := C4_process_invariant.1 u0 simA hreach
  have h2 := (C4_process_invariant.2 u0 simA [1] hreach hch).1
    (by simp [simA, PressureSimulator.init]; norm_num)
  exact ⟨h1, h2⟩
